import Mathlib

/-!
# MunicipalDashboard.jsx: report sweeps, countdown timers and handlers

Shallow embedding of `src/Frontend/src/pages/MunicipalDashboard.jsx`.

Conventions of the embedding

* Wall-clock readings (`new Date().getTime()`) are an explicit argument
  `now : Int`, in milliseconds.
* `new Date(x).getTime()` yields a `Timestamp`: a number of milliseconds or
  `NaN`.  Parsing of a date string is implementation defined in JavaScript and
  is an explicit argument `parse : String → Timestamp`.
* The `useState` declaration of `timers`/`setTimers` is missing from the
  file; the cell is taken as one more piece of component state, an object
  from report id to timestamp that is empty at mount.
* `reportId` and `newStatus` in `handleUpdate`, and `fetchReports` in both
  handlers, are identifiers that no enclosing scope declares: reading one
  throws a `ReferenceError`, which the handler's own `catch` receives.
* The outcome of a remote call is an input of the handler making it.
* Timestamps are integers of a size JavaScript numbers hold exactly, so
  number arithmetic is integer arithmetic.
-/

namespace MunicipalDashboard

/-! ## Data model -/

/-- Result of `Date.prototype.getTime`: a millisecond count or `NaN`. -/
inductive Timestamp where
  | nan : Timestamp
  | ms (t : Int) : Timestamp
  deriving DecidableEq, Repr

/-- Value of a report's `estimatedCompletionTime` property: absent
(`undefined`), `null`, or a string. -/
inductive CompletionTime where
  | undefined : CompletionTime
  | null : CompletionTime
  | str (s : String) : CompletionTime
  deriving DecidableEq, Repr

/-- Report object as received from `GET /api/municipal/reports`.  `rest`
holds every further own property, which the component never reads but the
object spread carries along. -/
structure Report where
  _id : String
  address : String
  status : String
  estimatedCompletionTime : CompletionTime
  rest : List (String × String)
  deriving DecidableEq, Repr

/-- `new Date(x).getTime()` for `x` the `estimatedCompletionTime` of a report:
`undefined` gives `NaN`, `null` gives `0`, a string is parsed. -/
def getTime (parse : String → Timestamp) : CompletionTime → Timestamp
  | .undefined => .nan
  | .null => .ms 0
  | .str s => parse s

/-- `24 * 60 * 60 * 1000`, line 48. -/
def oneDay : Int := 24 * 60 * 60 * 1000

/-- JavaScript `currentTime > completionTime + oneDay`; every comparison with
`NaN` is false. -/
def pastGrace (now : Int) : Timestamp → Bool
  | .nan => false
  | .ms t => decide (now > t + oneDay)

/-! ## Deadline sweep (lines 41-57) -/

/-- Callback of `prevReports.map` in the first interval effect, lines 44-53. -/
def deadlineSweepReport (parse : String → Timestamp) (now : Int) (report : Report) : Report :=
  if report.status = "completed" ∨ report.status = "failed" then report
  else
    let completionTime := getTime parse report.estimatedCompletionTime
    let currentTime := now
    if pastGrace currentTime completionTime then { report with status := "failed" }
    else report

/-- Updater passed to `setReports` by one tick of the first interval. -/
def deadlineSweep (parse : String → Timestamp) (now : Int) (prevReports : List Report) :
    List Report :=
  prevReports.map (deadlineSweepReport parse now)

/-! ## Timer map and countdown formatter (lines 116-126) -/

/-- Modelled from the spec: the `timers` state cell, which the component
reads (`timers[reportId]`) and updates (`setTimers`) while its `useState`
declaration is missing from the file: a mapping from report identifier to
deadline timestamp, held in client memory and empty at mount.  Lookup is by
own property; `none` is `undefined`. -/
abbrev Timers := String → Option Timestamp

/-- The empty object. -/
def Timers.empty : Timers := fun _ => none

/-- Object spread with a computed key, `{ ...prevTimers, [reportId]: v }`,
lines 80-83. -/
def Timers.set (prevTimers : Timers) (reportId : String) (v : Timestamp) : Timers :=
  fun k => if k = reportId then some v else prevTimers k

/-- Copy of the object followed by `delete newTimers[reportId]`, lines
104-108. -/
def Timers.delete (prevTimers : Timers) (reportId : String) : Timers :=
  fun k => if k = reportId then none else prevTimers k

/-- `String.prototype.padStart(targetLength, padString)` for a one-character
pad string. -/
def padStart (s : String) (targetLength : Nat) (c : Char) : String :=
  String.mk (List.replicate (targetLength - s.length) c) ++ s

/-- `x.toString().padStart(2, '0')` for an integer-valued number `x`. -/
def pad2 (x : Int) : String :=
  padStart (toString x) 2 '0'

/-- The template string of line 125. -/
def formatHMS (hours minutes seconds : Int) : String :=
  pad2 hours ++ ":" ++ pad2 minutes ++ ":" ++ pad2 seconds

/-- `calculateRemainingTime`, lines 116-126.  `!completionTime` holds for
`undefined`, `NaN` and `0`. -/
def calculateRemainingTime (timers : Timers) (now : Int) (reportId : String) : String :=
  let currentTime := now
  match timers reportId with
  | none => "00:00:00"
  | some .nan => "00:00:00"
  | some (.ms completionTime) =>
    if completionTime = 0 then "00:00:00"
    else
      let diff := completionTime - currentTime
      if diff ≤ 0 then "00:00:00"
      else
        let hours := diff / (1000 * 60 * 60)
        let minutes := (diff % (1000 * 60 * 60)) / (1000 * 60)
        let seconds := (diff % (1000 * 60)) / 1000
        formatHMS hours minutes seconds

/-- `getRowClassName`, lines 128-137. -/
def getRowClassName (timers : Timers) (now : Int) (report : Report) : String :=
  if report.status = "completed" then "completed-row"
  else if report.status = "failed" then "status-failed"
  else if report.status = "pending" then "status-pending"
  else if report.status = "in-progress" then
    let remainingTime := calculateRemainingTime timers now report._id
    if remainingTime = "00:00:00" then "status-failed" else "status-in-progress"
  else ""

/-! ## Countdown-expiry sweep (lines 139-153) -/

/-- Callback of `prevReports.map` in the second interval effect. -/
def expirySweepReport (timers : Timers) (now : Int) (report : Report) : Report :=
  if report.status ≠ "in-progress" then report
  else
    let remainingTime := calculateRemainingTime timers now report._id
    if remainingTime = "00:00:00" then { report with status := "failed" }
    else report

/-- Updater passed to `setReports` by one tick of the second interval. -/
def expirySweep (timers : Timers) (now : Int) (prevReports : List Report) : List Report :=
  prevReports.map (expirySweepReport timers now)

/-! ## Reference for the countdown formatter, after the specification -/

/-- A natural number written in decimal and left-padded with '0' to two
digits. -/
def twoDigits (n : Nat) : String :=
  if n < 10 then "0" ++ Nat.repr n else Nat.repr n

/-- One part of the reference countdown: a number written in decimal and
left-padded to two digits; `none` is the number `NaN`, written 'NaN'. -/
def specPart : Option Nat → String
  | none => "NaN"
  | some n => twoDigits n

/-- Reference countdown of the specification for the timer entry of an id
(`none`: no entry): the zero string when there is no entry or the deadline
`D` satisfies `D - now <= 0`, otherwise `HH:MM:SS` of `d = D - now`.  For the
entry `NaN` the comparison `D - now <= 0` is false, so the reference takes
the second case with `d = NaN`. -/
def calculateRemainingTimeSpec (entry : Option Timestamp) (now : Int) : String :=
  match entry with
  | none => "00:00:00"
  | some .nan => specPart none ++ ":" ++ specPart none ++ ":" ++ specPart none
  | some (.ms D) =>
    if D - now ≤ 0 then "00:00:00"
    else
      let d := (D - now).toNat
      specPart (some (d / 3600000)) ++ ":" ++ specPart (some (d % 3600000 / 60000)) ++ ":" ++
        specPart (some (d % 60000 / 1000))

/-! ## Component state and handlers (lines 8-26, 59-114) -/

/-- Remote requests the component issues. -/
inductive Request where
  | get : Request
  | delete (reportId : String) : Request
  deriving DecidableEq, Repr

/-- State of the component: the five `useState` cells of lines 8-12, the
timer map, and the record of the remote requests issued so far, oldest
first. -/
structure State where
  reports : List Report
  selectedReport : Option Report
  status : String
  estimatedCompletionTime : String
  message : String
  timers : Timers
  requests : List Request

/-- State at mount, before the first effect has run. -/
def State.init : State :=
  { reports := [], selectedReport := none, status := "", estimatedCompletionTime := "",
    message := "", timers := Timers.empty, requests := [] }

/-- `fetchReports`, lines 15-24, declared inside the first effect and called
there on line 25: a successful response replaces the list, a failure is only
logged. -/
def fetchReports (s : State) (response : Option (List Report)) : State :=
  let s := { s with requests := s.requests ++ [Request.get] }
  match response with
  | some data => { s with reports := data }
  | none => s

/-- `x || ''` for the `estimatedCompletionTime` of a report, line 62. -/
def CompletionTime.orEmpty : CompletionTime → String
  | .undefined => ""
  | .null => ""
  | .str s => s

/-- `setSelectedReport(report)` with the effect of lines 59-67.  React
compares the new value with the held one by object identity, which the value
of a report does not show: `sameObject` tells whether `report` is the very
object already selected.  In that case the state update is skipped and the
effect does not run; otherwise the cell is set and the effect copies the
report's status and estimated completion time into the form. -/
def setSelectedReport (s : State) (report : Report) (sameObject : Bool) : State :=
  if sameObject = true ∧ s.selectedReport = some report then s
  else
    { s with selectedReport := some report, status := report.status,
             estimatedCompletionTime := report.estimatedCompletionTime.orEmpty }

/-- Click on the row (or on its "In Progress" button) of the report at
position `i` of the table, lines 173 and 184-190. -/
def clickRow (s : State) (i : Nat) (sameObject : Bool) : State :=
  match s.reports.get? i with
  | none => s
  | some report =>
    if report.status ≠ "completed" then setSelectedReport s report sameObject else s

/-- `handleUpdate`, lines 69-96, which takes no argument.  Line 70 returns
when no report is selected.  Otherwise the first argument of `axios.put`,
the URL template of line 72, reads `reportId`, an identifier that no
enclosing scope declares: evaluating it throws a `ReferenceError` inside the
`try`, before the request is made; lines 78-91 are skipped and the `catch` of
lines 92-95 sets the message. -/
def handleUpdate (s : State) : State :=
  match s.selectedReport with
  | none => s
  | some _ => { s with message := "Error updating report status." }

/-- `handleDelete`, lines 98-114.  `ok` tells whether the `DELETE` resolves.
When it does, lines 103-108 set the success message and drop the timer entry;
line 109 then calls `fetchReports`, which is declared inside the first effect
and not in scope here: the call throws a `ReferenceError`, and the `catch` of
lines 110-113 replaces the message. -/
def handleDelete (s : State) (reportId : String) (ok : Bool) : State :=
  let s := { s with requests := s.requests ++ [Request.delete reportId] }
  if ok then
    let s := { s with message := "REPORT DELETED SUCCESSFULLY !!" }
    let s := { s with timers := s.timers.delete reportId }
    { s with message := "Error deleting report." }
  else
    { s with message := "Error deleting report." }

/-- Operations of the component, each with the inputs it receives from its
environment. -/
inductive Op where
  | load (response : Option (List Report)) : Op
  | clickRow (i : Nat) (sameObject : Bool) : Op
  | setStatus (v : String) : Op
  | setEstimatedCompletionTime (v : String) : Op
  | handleUpdate : Op
  | handleDelete (reportId : String) (ok : Bool) : Op
  | deadlineTick (now : Int) : Op
  | expiryTick (now : Int) : Op

/-- One operation applied to the state. -/
def step (parse : String → Timestamp) (s : State) : Op → State
  | .load response => fetchReports s response
  | .clickRow i sameObject => clickRow s i sameObject
  | .setStatus v => { s with status := v }
  | .setEstimatedCompletionTime v => { s with estimatedCompletionTime := v }
  | .handleUpdate => handleUpdate s
  | .handleDelete reportId ok => handleDelete s reportId ok
  | .deadlineTick now => { s with reports := deadlineSweep parse now s.reports }
  | .expiryTick now => { s with reports := expirySweep s.timers now s.reports }

/-- State after a sequence of operations from the initial state. -/
def run (parse : String → Timestamp) (ops : List Op) : State :=
  ops.foldl (step parse) State.init

/-! ## Sample inputs -/

/-- A date parser that knows two ISO strings and rejects everything else. -/
def sampleParse (s : String) : Timestamp :=
  if s = "1970-01-01T00:00:01.000Z" then .ms 1000
  else if s = "1970-01-03T00:00:00.000Z" then .ms 172800000
  else .nan

/-- A pending report whose estimated completion time is one second after the
epoch. -/
def samplePending : Report :=
  { _id := "r1", address := "Sector 12", status := "pending",
    estimatedCompletionTime := .str "1970-01-01T00:00:01.000Z", rest := [] }

/-- An in-progress report. -/
def sampleInProgress : Report :=
  { _id := "r2", address := "Sector 7", status := "in-progress",
    estimatedCompletionTime := .str "1970-01-03T00:00:00.000Z", rest := [] }

/-- A pending report whose estimated completion time is `null`. -/
def sampleNull : Report :=
  { _id := "r4", address := "", status := "pending",
    estimatedCompletionTime := .null, rest := [] }

/-- A pending report without an estimated completion time. -/
def sampleUndefined : Report :=
  { _id := "r5", address := "", status := "pending",
    estimatedCompletionTime := .undefined, rest := [] }

/-- A pending report whose estimated completion time is free text. -/
def sampleFreeText : Report :=
  { _id := "r6", address := "", status := "pending",
    estimatedCompletionTime := .str "in 3 days", rest := [("reportedBy", "u17")] }

/-- A completed report. -/
def sampleCompleted : Report :=
  { _id := "r3", address := "Main road", status := "completed",
    estimatedCompletionTime := .null, rest := [] }

/-- A state with two listed reports, the in-progress one selected, its
deadline in the form and two timers running. -/
def sampleState : State :=
  { reports := [samplePending, sampleInProgress], selectedReport := some sampleInProgress,
    status := "in-progress", estimatedCompletionTime := "1970-01-03T00:00:00.000Z",
    message := "", requests := [Request.get],
    timers := (Timers.empty.set "r2" (.ms 172800000)).set "r7" (.ms 259200000) }

/-- A run of the component after a reload: the list loads with one report
in progress and the operator selects it. -/
def sampleRun : List Op :=
  [Op.load (some [sampleInProgress]), Op.clickRow 0 false]

/-! ## Decimal rendering: lemmas -/

theorem toDigitsCore_length_le (b fuel n : Nat) (ds : List Char) :
    ds.length ≤ (Nat.toDigitsCore b fuel n ds).length := by
  induction fuel generalizing n ds with
  | zero => simp [Nat.toDigitsCore]
  | succ fuel ih =>
    rw [Nat.toDigitsCore]
    split
    · simp
    · exact Nat.le_trans (by simp) (ih _ _)

theorem toDigitsCore_length_pow (k : Nat) :
    ∀ (fuel n : Nat) (ds : List Char), n < fuel → 10 ^ k ≤ n →
      ds.length + k + 1 ≤ (Nat.toDigitsCore 10 fuel n ds).length := by
  induction k with
  | zero =>
    intro fuel n ds hf _
    obtain ⟨f, rfl⟩ : ∃ f, fuel = f + 1 := ⟨fuel - 1, by omega⟩
    rw [Nat.toDigitsCore]
    split
    · simp
    · exact Nat.le_trans (by simp) (toDigitsCore_length_le _ _ _ _)
  | succ k ih =>
    intro fuel n ds hf hn
    obtain ⟨f, rfl⟩ : ∃ f, fuel = f + 1 := ⟨fuel - 1, by omega⟩
    have h10 : 10 ^ k ≤ n / 10 := by
      rw [Nat.le_div_iff_mul_le (by decide)]
      rw [pow_succ] at hn
      exact hn
    have hpos : 0 < 10 ^ k := Nat.pow_pos (by decide)
    rw [Nat.toDigitsCore]
    rw [if_neg (by omega)]
    have := ih f (n / 10) (Nat.digitChar (n % 10) :: ds) (by omega) h10
    simp only [List.length_cons] at this
    omega

theorem repr_length_of_le (k n : Nat) (h : 10 ^ k ≤ n) : k + 1 ≤ (Nat.repr n).length := by
  have := toDigitsCore_length_pow k (n + 1) n [] (by omega) h
  simpa [Nat.repr, Nat.toDigits, List.asString, String.length] using this

theorem repr_length_lt_ten (n : Nat) (h : n < 10) : (Nat.repr n).length = 1 := by
  interval_cases n <;> rfl

theorem pad2_ofNat (n : Nat) : pad2 (n : Int) = twoDigits n := by
  have hs : toString (n : Int) = Nat.repr n := rfl
  unfold pad2 padStart twoDigits
  rw [hs]
  by_cases h : n < 10
  · rw [if_pos h, repr_length_lt_ten n h]; rfl
  · rw [if_neg h]
    have := repr_length_of_le 1 n (by omega)
    have h0 : 2 - (Nat.repr n).length = 0 := by omega
    rw [h0]
    apply String.ext
    simp

theorem twoDigits_length (n : Nat) : 2 ≤ (twoDigits n).length := by
  unfold twoDigits
  by_cases h : n < 10
  · rw [if_pos h, String.length_append, repr_length_lt_ten n h]; decide
  · rw [if_neg h]; exact repr_length_of_le 1 n (by omega)

theorem twoDigits_eq_zero (n : Nat) : twoDigits n = "00" ↔ n = 0 := by
  constructor
  · intro h
    have hlt : n < 100 := by
      by_contra hge
      have h3 := repr_length_of_le 2 n (by omega)
      have : twoDigits n = Nat.repr n := by
        unfold twoDigits; rw [if_neg (by omega)]
      rw [this] at h
      rw [h] at h3
      exact absurd h3 (by decide)
    revert h
    interval_cases n <;> decide
  · rintro rfl
    rfl

theorem hms_eq_zero (a b c : String) (ha : 2 ≤ a.length) (hb : 2 ≤ b.length)
    (hc : 2 ≤ c.length) (h : a ++ ":" ++ b ++ ":" ++ c = "00:00:00") :
    a = "00" ∧ b = "00" ∧ c = "00" := by
  have hl := congrArg String.length h
  simp only [String.length_append] at hl
  have hl8 : ("00:00:00" : String).length = 8 := by decide
  have hl1 : (":" : String).length = 1 := by decide
  rw [hl8, hl1] at hl
  have hd := congrArg String.data h
  simp only [String.data_append] at hd
  have hd' : a.data ++ [':'] ++ b.data ++ [':'] ++ c.data =
      ['0', '0'] ++ [':'] ++ ['0', '0'] ++ [':'] ++ ['0', '0'] := hd
  have hcl : c.data.length = ['0', '0'].length := by
    change c.length = 2
    omega
  obtain ⟨h1, hc'⟩ := List.append_inj' hd' hcl
  obtain ⟨h1, -⟩ := List.append_inj' h1 rfl
  have hbl : b.data.length = ['0', '0'].length := by
    change b.length = 2
    omega
  obtain ⟨h1, hb'⟩ := List.append_inj' h1 hbl
  obtain ⟨ha', -⟩ := List.append_inj' h1 rfl
  exact ⟨String.ext ha', String.ext hb', String.ext hc'⟩

theorem formatHMS_ofNat_eq_zero (h m s : Nat) :
    formatHMS (h : Int) (m : Int) (s : Int) = "00:00:00" ↔ h = 0 ∧ m = 0 ∧ s = 0 := by
  unfold formatHMS
  rw [pad2_ofNat, pad2_ofNat, pad2_ofNat]
  constructor
  · intro e
    obtain ⟨e1, e2, e3⟩ := hms_eq_zero _ _ _ (twoDigits_length h) (twoDigits_length m)
      (twoDigits_length s) e
    exact ⟨(twoDigits_eq_zero h).1 e1, (twoDigits_eq_zero m).1 e2, (twoDigits_eq_zero s).1 e3⟩
  · rintro ⟨rfl, rfl, rfl⟩
    rfl

/-! ## Countdown formatter: lemmas -/

theorem calculateRemainingTime_none (timers : Timers) (now : Int) (reportId : String)
    (h : timers reportId = none) : calculateRemainingTime timers now reportId = "00:00:00" := by
  simp [calculateRemainingTime, h]

theorem calculateRemainingTime_nan (timers : Timers) (now : Int) (reportId : String)
    (h : timers reportId = some .nan) :
    calculateRemainingTime timers now reportId = "00:00:00" := by
  simp [calculateRemainingTime, h]

theorem calculateRemainingTime_zero (timers : Timers) (now : Int) (reportId : String)
    (h : timers reportId = some (.ms 0)) :
    calculateRemainingTime timers now reportId = "00:00:00" := by
  simp [calculateRemainingTime, h]

theorem calculateRemainingTime_elapsed (timers : Timers) (now : Int) (reportId : String)
    (D : Int) (h : timers reportId = some (.ms D)) (hd : D - now ≤ 0) :
    calculateRemainingTime timers now reportId = "00:00:00" := by
  simp [calculateRemainingTime, h, hd]

theorem calculateRemainingTime_running (timers : Timers) (now : Int) (reportId : String)
    (D : Int) (h : timers reportId = some (.ms D)) (h0 : D ≠ 0) (hd : 0 < D - now) :
    calculateRemainingTime timers now reportId =
      formatHMS (((D - now).toNat / 3600000 : Nat) : Int)
        (((D - now).toNat % 3600000 / 60000 : Nat) : Int)
        (((D - now).toNat % 60000 / 1000 : Nat) : Int) := by
  have e1 : (D - now) / (1000 * 60 * 60) = (((D - now).toNat / 3600000 : Nat) : Int) := by omega
  have e2 : (D - now) % (1000 * 60 * 60) / (1000 * 60) =
      (((D - now).toNat % 3600000 / 60000 : Nat) : Int) := by omega
  have e3 : (D - now) % (1000 * 60) / 1000 = (((D - now).toNat % 60000 / 1000 : Nat) : Int) := by
    omega
  have hn : ¬ (D - now ≤ 0) := by omega
  simp only [calculateRemainingTime, h, if_neg h0, if_neg hn, e1, e2, e3]

theorem calculateRemainingTime_eq_zero_iff (timers : Timers) (now : Int) (reportId : String) :
    calculateRemainingTime timers now reportId = "00:00:00" ↔
      (timers reportId = none ∨ timers reportId = some .nan ∨
        ∃ D : Int, timers reportId = some (.ms D) ∧ (D = 0 ∨ D - now < 1000)) := by
  cases h : timers reportId with
  | none => simp [calculateRemainingTime_none timers now reportId h]
  | some v =>
    cases v with
    | nan => simp [calculateRemainingTime_nan timers now reportId h]
    | ms D =>
      by_cases h0 : D = 0
      · subst h0
        simp [calculateRemainingTime_zero timers now reportId h]
      · by_cases hd : D - now ≤ 0
        · have hlt : D - now < 1000 := by omega
          simp [calculateRemainingTime_elapsed timers now reportId D h hd, hlt]
        · rw [calculateRemainingTime_running timers now reportId D h h0 (by omega),
            formatHMS_ofNat_eq_zero]
          simp only [reduceCtorEq, Option.some.injEq, Timestamp.ms.injEq, exists_eq_left',
            false_or, h0]
          omega

/-! ## Deadline sweep: lemmas -/

theorem deadlineSweep_getElem? (parse : String → Timestamp) (now : Int) (reports : List Report)
    (i : Nat) :
    (deadlineSweep parse now reports)[i]? = (reports[i]?).map (deadlineSweepReport parse now) := by
  simp [deadlineSweep]

theorem deadlineSweepReport_terminal (parse : String → Timestamp) (now : Int) (r : Report)
    (h : r.status = "completed" ∨ r.status = "failed") :
    deadlineSweepReport parse now r = r := by
  simp [deadlineSweepReport, h]

theorem deadlineSweepReport_overdue (parse : String → Timestamp) (now : Int) (r : Report) (t : Int)
    (hc : r.status ≠ "completed") (hf : r.status ≠ "failed")
    (ht : getTime parse r.estimatedCompletionTime = .ms t) (hnow : now > t + 86400000) :
    deadlineSweepReport parse now r = { r with status := "failed" } := by
  have hg : now > t + oneDay := by simpa [oneDay] using hnow
  simp [deadlineSweepReport, hc, hf, ht, pastGrace, hg]

theorem deadlineSweepReport_within (parse : String → Timestamp) (now : Int) (r : Report) (t : Int)
    (ht : getTime parse r.estimatedCompletionTime = .ms t) (hnow : now ≤ t + 86400000) :
    deadlineSweepReport parse now r = r := by
  have hg : ¬ (t + oneDay < now) := by simp only [oneDay]; omega
  simp [deadlineSweepReport, ht, pastGrace, hg]

theorem deadlineSweepReport_nan (parse : String → Timestamp) (now : Int) (r : Report)
    (ht : getTime parse r.estimatedCompletionTime = .nan) :
    deadlineSweepReport parse now r = r := by
  simp [deadlineSweepReport, ht, pastGrace]

theorem deadlineSweepReport_cases (parse : String → Timestamp) (now : Int) (r : Report) :
    deadlineSweepReport parse now r = r ∨
      deadlineSweepReport parse now r = { r with status := "failed" } := by
  unfold deadlineSweepReport
  split
  · exact Or.inl rfl
  · dsimp only
    split
    · exact Or.inr rfl
    · exact Or.inl rfl

theorem deadlineSweepReport_idem (parse : String → Timestamp) (now : Int) (r : Report) :
    deadlineSweepReport parse now (deadlineSweepReport parse now r) =
      deadlineSweepReport parse now r := by
  rcases deadlineSweepReport_cases parse now r with h | h
  · rw [h, h]
  · rw [h]
    exact deadlineSweepReport_terminal parse now _ (Or.inr rfl)

/-! ## Deadline sweep: claims -/

/-- C1: one tick of the deadline sweep gives status 'failed' (all other fields
kept) to every report whose status is neither 'completed' nor 'failed' and
whose estimated completion time has timestamp `t` with `now > t + 86400000`;
in particular a 'pending' report more than 24 hours overdue has status
'failed' after the tick. -/
theorem deadlineSweep_fails_overdue (parse : String → Timestamp) (now : Int)
    (reports : List Report) :
    (∀ (i : Nat) (r : Report) (t : Int), reports[i]? = some r →
        r.status ≠ "completed" → r.status ≠ "failed" →
        getTime parse r.estimatedCompletionTime = .ms t → now > t + 86400000 →
        (deadlineSweep parse now reports)[i]? = some { r with status := "failed" }) ∧
    (∀ (i : Nat) (r : Report) (t : Int), reports[i]? = some r → r.status = "pending" →
        getTime parse r.estimatedCompletionTime = .ms t → now > t + 86400000 →
        ((deadlineSweep parse now reports)[i]?).map Report.status = some "failed") := by
  constructor
  · intro i r t hr hc hf ht hnow
    rw [deadlineSweep_getElem?, hr, Option.map_some',
      deadlineSweepReport_overdue parse now r t hc hf ht hnow]
  · intro i r t hr hp ht hnow
    have hc : r.status ≠ "completed" := by rw [hp]; decide
    have hf : r.status ≠ "failed" := by rw [hp]; decide
    rw [deadlineSweep_getElem?, hr, Option.map_some',
      deadlineSweepReport_overdue parse now r t hc hf ht hnow]
    rfl

theorem deadlineSweep_fails_overdue_witness :
    (deadlineSweep sampleParse 86401001 [sampleCompleted, samplePending])[1]? =
        some { samplePending with status := "failed" } ∧
      ((deadlineSweep sampleParse 86401001 [sampleCompleted, samplePending])[1]?).map
        Report.status = some "failed" :=
  ⟨(deadlineSweep_fails_overdue sampleParse 86401001 [sampleCompleted, samplePending]).1
      1 samplePending 1000 rfl (by decide) (by decide) rfl (by decide),
   (deadlineSweep_fails_overdue sampleParse 86401001 [sampleCompleted, samplePending]).2
      1 samplePending 1000 rfl rfl rfl (by decide)⟩

/-- C8: one tick of the deadline sweep returns a list of the same length in
which the report at each position is the input report at that position,
either identical or with only its status replaced by 'failed'; a report with
status 'completed' or 'failed', and a report whose timestamp `t` satisfies
`now <= t + 86400000`, is returned unchanged; the tick is idempotent at a
fixed `now`. -/
theorem deadlineSweep_frame (parse : String → Timestamp) (now : Int) (reports : List Report) :
    (deadlineSweep parse now reports).length = reports.length ∧
    (∀ (i : Nat) (r : Report), reports[i]? = some r →
      ∃ r', (deadlineSweep parse now reports)[i]? = some r' ∧
        (r' = r ∨ r' = { r with status := "failed" }) ∧
        (r.status = "completed" ∨ r.status = "failed" → r' = r) ∧
        (∀ t : Int, getTime parse r.estimatedCompletionTime = .ms t →
          now ≤ t + 86400000 → r' = r)) ∧
    deadlineSweep parse now (deadlineSweep parse now reports) =
      deadlineSweep parse now reports := by
  refine ⟨by simp [deadlineSweep], ?_, ?_⟩
  · intro i r hr
    refine ⟨deadlineSweepReport parse now r, ?_, deadlineSweepReport_cases parse now r,
      deadlineSweepReport_terminal parse now r, ?_⟩
    · rw [deadlineSweep_getElem?, hr, Option.map_some']
    · intro t ht hnow
      exact deadlineSweepReport_within parse now r t ht hnow
  · simp only [deadlineSweep, List.map_map]
    apply List.map_congr_left
    intro r _
    exact deadlineSweepReport_idem parse now r

theorem deadlineSweep_frame_witness :
    (deadlineSweep sampleParse 5000 [samplePending, sampleCompleted])[0]? = some samplePending ∧
    (deadlineSweep sampleParse 5000 [samplePending, sampleCompleted])[1]? =
      some sampleCompleted := by
  constructor
  · obtain ⟨r', h, -, -, hw⟩ :=
      (deadlineSweep_frame sampleParse 5000 [samplePending, sampleCompleted]).2.1
        0 samplePending rfl
    rw [h, hw 1000 rfl (by decide)]
  · obtain ⟨r', h, -, ht, -⟩ :=
      (deadlineSweep_frame sampleParse 5000 [samplePending, sampleCompleted]).2.1
        1 sampleCompleted rfl
    rw [h, ht (Or.inl rfl)]

/-- C10: in the deadline sweep a report with status other than 'completed' or
'failed' whose `estimatedCompletionTime` is `null` has timestamp `0` and gets
status 'failed' on every tick with `now > 86400000`; one whose
`estimatedCompletionTime` is `undefined`, or a string that does not parse
(timestamp `NaN`), is returned unchanged for every `now`. -/
theorem deadlineSweep_null_undefined_nan (parse : String → Timestamp) (now : Int)
    (reports : List Report) (i : Nat) (r : Report) (hr : reports[i]? = some r)
    (hc : r.status ≠ "completed") (hf : r.status ≠ "failed") :
    (r.estimatedCompletionTime = .null →
      getTime parse r.estimatedCompletionTime = .ms 0 ∧
      (now > 86400000 →
        (deadlineSweep parse now reports)[i]? = some { r with status := "failed" })) ∧
    (r.estimatedCompletionTime = .undefined →
      (deadlineSweep parse now reports)[i]? = some r) ∧
    (∀ s : String, r.estimatedCompletionTime = .str s → parse s = .nan →
      (deadlineSweep parse now reports)[i]? = some r) := by
  refine ⟨?_, ?_, ?_⟩
  · intro hn
    have ht : getTime parse r.estimatedCompletionTime = .ms 0 := by rw [hn]; rfl
    refine ⟨ht, fun hnow => ?_⟩
    rw [deadlineSweep_getElem?, hr, Option.map_some',
      deadlineSweepReport_overdue parse now r 0 hc hf ht (by omega)]
  · intro hu
    have ht : getTime parse r.estimatedCompletionTime = .nan := by rw [hu]; rfl
    rw [deadlineSweep_getElem?, hr, Option.map_some', deadlineSweepReport_nan parse now r ht]
  · intro s hs hp
    have ht : getTime parse r.estimatedCompletionTime = .nan := by rw [hs]; exact hp
    rw [deadlineSweep_getElem?, hr, Option.map_some', deadlineSweepReport_nan parse now r ht]

theorem deadlineSweep_null_undefined_nan_witness :
    (getTime sampleParse sampleNull.estimatedCompletionTime = .ms 0 ∧
      (deadlineSweep sampleParse 86400001 [sampleNull, sampleUndefined, sampleFreeText])[0]? =
        some { sampleNull with status := "failed" }) ∧
    (deadlineSweep sampleParse 86400001 [sampleNull, sampleUndefined, sampleFreeText])[1]? =
      some sampleUndefined ∧
    (deadlineSweep sampleParse 86400001 [sampleNull, sampleUndefined, sampleFreeText])[2]? =
      some sampleFreeText :=
  ⟨⟨((deadlineSweep_null_undefined_nan sampleParse 86400001
        [sampleNull, sampleUndefined, sampleFreeText] 0 sampleNull rfl (by decide)
        (by decide)).1 rfl).1,
     ((deadlineSweep_null_undefined_nan sampleParse 86400001
        [sampleNull, sampleUndefined, sampleFreeText] 0 sampleNull rfl (by decide)
        (by decide)).1 rfl).2 (by decide)⟩,
   (deadlineSweep_null_undefined_nan sampleParse 86400001
      [sampleNull, sampleUndefined, sampleFreeText] 1 sampleUndefined rfl (by decide)
      (by decide)).2.1 rfl,
   (deadlineSweep_null_undefined_nan sampleParse 86400001
      [sampleNull, sampleUndefined, sampleFreeText] 2 sampleFreeText rfl (by decide)
      (by decide)).2.2 "in 3 days" rfl (by decide)⟩

/-! ## Countdown formatter and row class: claims -/

/-- C2, as the specification states it, fails for a timer entry that is `NaN`
(the timestamp of an estimated completion time that does not parse): the
entry is present and `NaN - now <= 0` is false, so the reference formats
`d = NaN`, while the code returns the zero string. -/
theorem calculateRemainingTime_nan_entry :
    (Timers.empty.set "r2" .nan) "r2" = some .nan ∧
    calculateRemainingTime (Timers.empty.set "r2" .nan) 1000 "r2" = "00:00:00" ∧
    calculateRemainingTimeSpec ((Timers.empty.set "r2" .nan) "r2") 1000 = "NaN:NaN:NaN" := by
  decide

/-- C2 (amended): for a clock `now >= 0`, `calculateRemainingTime` is
'00:00:00' when the id has no timer entry, or its entry is `NaN`, or its
deadline `D` satisfies `D - now <= 0`; otherwise it is `HH:MM:SS` of
`d = D - now` with each part in decimal, left-padded to two digits, as the
reference gives it.  For `d = 3661000` the result is '01:01:01'. -/
theorem calculateRemainingTime_refines_spec (timers : Timers) (now : Int) (reportId : String)
    (hnow : 0 ≤ now) :
    (timers reportId = none →
      calculateRemainingTime timers now reportId = calculateRemainingTimeSpec none now) ∧
    (timers reportId = some .nan →
      calculateRemainingTime timers now reportId = "00:00:00") ∧
    (∀ D : Int, timers reportId = some (.ms D) →
      calculateRemainingTime timers now reportId =
        calculateRemainingTimeSpec (some (.ms D)) now) ∧
    (∀ D : Int, timers reportId = some (.ms D) → D - now = 3661000 →
      calculateRemainingTime timers now reportId = "01:01:01") := by
  have key : ∀ D : Int, timers reportId = some (.ms D) →
      calculateRemainingTime timers now reportId =
        calculateRemainingTimeSpec (some (.ms D)) now := by
    intro D h
    by_cases hd : D - now ≤ 0
    · rw [calculateRemainingTime_elapsed timers now reportId D h hd]
      simp [calculateRemainingTimeSpec, hd]
    · have h0 : D ≠ 0 := by
        intro h0
        omega
      rw [calculateRemainingTime_running timers now reportId D h h0 (by omega)]
      simp only [calculateRemainingTimeSpec, if_neg hd, formatHMS, pad2_ofNat, specPart]
  refine ⟨?_, ?_, key, ?_⟩
  · intro h
    rw [calculateRemainingTime_none timers now reportId h]
    rfl
  · intro h
    exact calculateRemainingTime_nan timers now reportId h
  · intro D h hd
    rw [key D h]
    simp only [calculateRemainingTimeSpec, hd]
    decide

theorem calculateRemainingTime_refines_spec_witness :
    calculateRemainingTime sampleState.timers 169139000 "r9" = "00:00:00" ∧
    calculateRemainingTime (Timers.empty.set "r6" .nan) 169139000 "r6" = "00:00:00" ∧
    calculateRemainingTime sampleState.timers 169139000 "r2" =
      calculateRemainingTimeSpec (some (.ms 172800000)) 169139000 ∧
    calculateRemainingTime (Timers.empty.set "r4" (.ms 0)) 0 "r4" =
      calculateRemainingTimeSpec (some (.ms 0)) 0 ∧
    calculateRemainingTime sampleState.timers 169139000 "r2" = "01:01:01" :=
  ⟨(calculateRemainingTime_refines_spec sampleState.timers 169139000 "r9" (by decide)).1
      (by decide),
   (calculateRemainingTime_refines_spec (Timers.empty.set "r6" .nan) 169139000 "r6"
      (by decide)).2.1 (by decide),
   (calculateRemainingTime_refines_spec sampleState.timers 169139000 "r2"
      (by decide)).2.2.1 172800000 (by decide),
   (calculateRemainingTime_refines_spec (Timers.empty.set "r4" (.ms 0)) 0 "r4"
      (by decide)).2.2.1 0 (by decide),
   (calculateRemainingTime_refines_spec sampleState.timers 169139000 "r2"
      (by decide)).2.2.2 172800000 (by decide) (by decide)⟩

/-- C6: `getRowClassName` returns 'completed-row' for status 'completed',
'status-failed' for 'failed', 'status-pending' for 'pending'; for
'in-progress' it returns 'status-failed' when `calculateRemainingTime` of the
report's id is '00:00:00' and 'status-in-progress' otherwise; for every other
status it returns the empty string. -/
theorem getRowClassName_cases (timers : Timers) (now : Int) (report : Report) :
    (report.status = "completed" → getRowClassName timers now report = "completed-row") ∧
    (report.status = "failed" → getRowClassName timers now report = "status-failed") ∧
    (report.status = "pending" → getRowClassName timers now report = "status-pending") ∧
    (report.status = "in-progress" →
      (calculateRemainingTime timers now report._id = "00:00:00" →
        getRowClassName timers now report = "status-failed") ∧
      (calculateRemainingTime timers now report._id ≠ "00:00:00" →
        getRowClassName timers now report = "status-in-progress")) ∧
    (report.status ≠ "completed" → report.status ≠ "failed" → report.status ≠ "pending" →
      report.status ≠ "in-progress" → getRowClassName timers now report = "") := by
  refine ⟨?_, ?_, ?_, ?_, ?_⟩
  · intro h
    simp [getRowClassName, h]
  · intro h
    simp [getRowClassName, h]
  · intro h
    simp [getRowClassName, h]
  · intro h
    constructor
    · intro hz
      simp [getRowClassName, h, hz]
    · intro hz
      simp [getRowClassName, h, hz]
  · intro h1 h2 h3 h4
    simp [getRowClassName, h1, h2, h3, h4]

theorem getRowClassName_cases_witness :
    getRowClassName (Timers.empty.set "r2" (.ms 172800000)) 169139000 sampleCompleted =
      "completed-row" ∧
    getRowClassName (Timers.empty.set "r2" (.ms 172800000)) 169139000
      { samplePending with status := "failed" } = "status-failed" ∧
    getRowClassName (Timers.empty.set "r2" (.ms 172800000)) 169139000 samplePending =
      "status-pending" ∧
    getRowClassName (Timers.empty.set "r2" (.ms 172800000)) 172800000 sampleInProgress =
      "status-failed" ∧
    getRowClassName (Timers.empty.set "r2" (.ms 172800000)) 169139000 sampleInProgress =
      "status-in-progress" ∧
    getRowClassName (Timers.empty.set "r2" (.ms 172800000)) 169139000
      { samplePending with status := "on hold" } = "" :=
  ⟨(getRowClassName_cases (Timers.empty.set "r2" (.ms 172800000)) 169139000
      sampleCompleted).1 rfl,
   (getRowClassName_cases (Timers.empty.set "r2" (.ms 172800000)) 169139000
      { samplePending with status := "failed" }).2.1 rfl,
   (getRowClassName_cases (Timers.empty.set "r2" (.ms 172800000)) 169139000
      samplePending).2.2.1 rfl,
   ((getRowClassName_cases (Timers.empty.set "r2" (.ms 172800000)) 172800000
      sampleInProgress).2.2.2.1 rfl).1 (by decide),
   ((getRowClassName_cases (Timers.empty.set "r2" (.ms 172800000)) 169139000
      sampleInProgress).2.2.2.1 rfl).2 (by decide),
   (getRowClassName_cases (Timers.empty.set "r2" (.ms 172800000)) 169139000
      { samplePending with status := "on hold" }).2.2.2.2 (by decide) (by decide) (by decide)
      (by decide)⟩

/-! ## Countdown-expiry sweep: lemmas and claims -/

theorem expirySweep_getElem? (timers : Timers) (now : Int) (reports : List Report) (i : Nat) :
    (expirySweep timers now reports)[i]? = (reports[i]?).map (expirySweepReport timers now) := by
  simp [expirySweep]

theorem expirySweepReport_expired (timers : Timers) (now : Int) (r : Report)
    (hs : r.status = "in-progress")
    (hz : calculateRemainingTime timers now r._id = "00:00:00") :
    expirySweepReport timers now r = { r with status := "failed" } := by
  simp [expirySweepReport, hs, hz]

theorem expirySweepReport_unchanged (timers : Timers) (now : Int) (r : Report)
    (h : ¬ (r.status = "in-progress" ∧ calculateRemainingTime timers now r._id = "00:00:00")) :
    expirySweepReport timers now r = r := by
  unfold expirySweepReport
  by_cases hs : r.status = "in-progress"
  · have hz : calculateRemainingTime timers now r._id ≠ "00:00:00" := fun hz => h ⟨hs, hz⟩
    simp [hs, hz]
  · simp [hs]

theorem failed_ne_of_inProgress (r : Report) (hs : r.status = "in-progress") :
    ({ r with status := "failed" } : Report) ≠ r := by
  intro h
  have h2 : ({ r with status := "failed" } : Report).status = r.status := by rw [h]
  rw [hs] at h2
  have h3 : ("failed" : String) = "in-progress" := h2
  exact absurd h3 (by decide)

/-- C9, as the specification states it, fails for a timer entry that is `NaN`
(the timestamp of an estimated completion time that does not parse): the
entry is present, is not zero and satisfies no numeric comparison, yet the
sweep turns the 'in-progress' report to 'failed'. -/
theorem expirySweep_nan_entry :
    (expirySweep (Timers.empty.set "r2" .nan) 0 [sampleInProgress])[0]? =
      some { sampleInProgress with status := "failed" } ∧
    ({ sampleInProgress with status := "failed" } : Report) ≠ sampleInProgress ∧
    ¬ ((Timers.empty.set "r2" .nan) sampleInProgress._id = none ∨
       (Timers.empty.set "r2" .nan) sampleInProgress._id = some (.ms 0) ∨
       ∃ D : Int, (Timers.empty.set "r2" .nan) sampleInProgress._id = some (.ms D) ∧
         D - 0 < 1000) := by
  refine ⟨by decide, by decide, ?_⟩
  have e : (Timers.empty.set "r2" .nan) sampleInProgress._id = some .nan := by decide
  rw [e]
  simp

/-- C9 (amended): one tick of the countdown-expiry sweep changes a report if
and only if its status is 'in-progress' and its id has no timer entry, or a
`NaN` or zero entry, or a deadline `D` with `D - now < 1000`; such a report
gets status 'failed' with all other fields kept, every other report is
returned unchanged.  In particular an 'in-progress' report without timer
entry (as with the empty timer map) becomes 'failed'. -/
theorem expirySweep_changes_iff (timers : Timers) (now : Int) (reports : List Report) :
    (expirySweep timers now reports).length = reports.length ∧
    (∀ (i : Nat) (r : Report), reports[i]? = some r →
      ((r.status = "in-progress" ∧
          (timers r._id = none ∨ timers r._id = some .nan ∨
            ∃ D : Int, timers r._id = some (.ms D) ∧ (D = 0 ∨ D - now < 1000)) →
        (expirySweep timers now reports)[i]? = some { r with status := "failed" }) ∧
       (¬ (r.status = "in-progress" ∧
          (timers r._id = none ∨ timers r._id = some .nan ∨
            ∃ D : Int, timers r._id = some (.ms D) ∧ (D = 0 ∨ D - now < 1000))) →
        (expirySweep timers now reports)[i]? = some r) ∧
       ((expirySweep timers now reports)[i]? ≠ some r ↔
        (r.status = "in-progress" ∧
          (timers r._id = none ∨ timers r._id = some .nan ∨
            ∃ D : Int, timers r._id = some (.ms D) ∧ (D = 0 ∨ D - now < 1000)))))) ∧
    (∀ (i : Nat) (r : Report), reports[i]? = some r → r.status = "in-progress" →
      (expirySweep Timers.empty now reports)[i]? = some { r with status := "failed" }) := by
  refine ⟨by simp [expirySweep], ?_, ?_⟩
  · intro i r hr
    have hyes : (r.status = "in-progress" ∧
          (timers r._id = none ∨ timers r._id = some .nan ∨
            ∃ D : Int, timers r._id = some (.ms D) ∧ (D = 0 ∨ D - now < 1000)) →
        (expirySweep timers now reports)[i]? = some { r with status := "failed" }) := by
      rintro ⟨hs, hc⟩
      rw [expirySweep_getElem?, hr, Option.map_some', expirySweepReport_expired timers now r hs
        ((calculateRemainingTime_eq_zero_iff timers now r._id).2 hc)]
    have hno : (¬ (r.status = "in-progress" ∧
          (timers r._id = none ∨ timers r._id = some .nan ∨
            ∃ D : Int, timers r._id = some (.ms D) ∧ (D = 0 ∨ D - now < 1000))) →
        (expirySweep timers now reports)[i]? = some r) := by
      intro hc
      rw [expirySweep_getElem?, hr, Option.map_some', expirySweepReport_unchanged timers now r]
      rw [calculateRemainingTime_eq_zero_iff]
      exact hc
    refine ⟨hyes, hno, ?_⟩
    constructor
    · intro hne
      by_contra hc
      exact hne (hno hc)
    · intro hc
      rw [hyes hc]
      intro h
      exact failed_ne_of_inProgress r hc.1 (Option.some.inj h)
  · intro i r hr hs
    rw [expirySweep_getElem?, hr, Option.map_some', expirySweepReport_expired Timers.empty now r hs
      (calculateRemainingTime_none Timers.empty now r._id rfl)]

theorem expirySweep_changes_iff_witness :
    (expirySweep (Timers.empty.set "r2" (.ms 172800000)) 172799500
        [samplePending, sampleInProgress])[1]? =
      some { sampleInProgress with status := "failed" } ∧
    (expirySweep (Timers.empty.set "r2" (.ms 172800000)) 172799500
        [samplePending, sampleInProgress])[0]? = some samplePending ∧
    (expirySweep Timers.empty 5 [samplePending, sampleInProgress])[1]? =
      some { sampleInProgress with status := "failed" } :=
  ⟨((expirySweep_changes_iff (Timers.empty.set "r2" (.ms 172800000)) 172799500
      [samplePending, sampleInProgress]).2.1 1 sampleInProgress rfl).1
      ⟨rfl, Or.inr (Or.inr ⟨172800000, by decide, Or.inr (by decide)⟩)⟩,
   ((expirySweep_changes_iff (Timers.empty.set "r2" (.ms 172800000)) 172799500
      [samplePending, sampleInProgress]).2.1 0 samplePending rfl).2.1
      (fun h => absurd h.1 (by decide)),
   (expirySweep_changes_iff (Timers.empty.set "r2" (.ms 172800000)) 172799500
      [samplePending, sampleInProgress]).2.2 1 sampleInProgress rfl rfl⟩

/-! ## Handlers: lemmas -/

theorem fetchReports_timers (s : State) (response : Option (List Report)) :
    (fetchReports s response).timers = s.timers := by
  cases response <;> rfl

theorem handleDelete_ok (s : State) (reportId : String) :
    handleDelete s reportId true =
      { s with requests := s.requests ++ [Request.delete reportId],
               timers := s.timers.delete reportId,
               message := "Error deleting report." } := by
  simp [handleDelete]

theorem handleDelete_failed (s : State) (reportId : String) :
    handleDelete s reportId false =
      { s with requests := s.requests ++ [Request.delete reportId],
               message := "Error deleting report." } := by
  simp [handleDelete]

theorem handleUpdate_selected (s : State) (sel : Report) (h : s.selectedReport = some sel) :
    handleUpdate s = { s with message := "Error updating report status." } := by
  simp [handleUpdate, h]

theorem handleUpdate_frame (s : State) :
    (handleUpdate s).timers = s.timers ∧ (handleUpdate s).requests = s.requests ∧
      (handleUpdate s).reports = s.reports := by
  unfold handleUpdate
  split <;> exact ⟨rfl, rfl, rfl⟩

theorem clickRow_timers (s : State) (i : Nat) (sameObject : Bool) :
    (clickRow s i sameObject).timers = s.timers := by
  unfold clickRow
  split
  · rfl
  · split
    · unfold setSelectedReport
      split <;> rfl
    · rfl

theorem Timers.delete_same (t : Timers) (k : String) : t.delete k k = none := by
  simp [Timers.delete]

theorem Timers.delete_other (t : Timers) (k k' : String) (h : k' ≠ k) :
    t.delete k k' = t k' := by
  simp [Timers.delete, h]

theorem Timers.delete_none (t : Timers) (k k' : String) (h : t k' = none) :
    t.delete k k' = none := by
  simp [Timers.delete, h]

theorem step_timers_none (parse : String → Timestamp) (s : State) (op : Op) (id : String)
    (h : s.timers id = none) : (step parse s op).timers id = none := by
  cases op with
  | load response => rw [step, fetchReports_timers]; exact h
  | clickRow i sameObject => rw [step, clickRow_timers]; exact h
  | setStatus v => exact h
  | setEstimatedCompletionTime v => exact h
  | handleUpdate => rw [step, (handleUpdate_frame s).1]; exact h
  | handleDelete reportId ok =>
    cases ok with
    | false => rw [step, handleDelete_failed]; exact h
    | true => rw [step, handleDelete_ok]; exact Timers.delete_none _ _ _ h
  | deadlineTick now => exact h
  | expiryTick now => exact h

theorem foldl_timers_none (parse : String → Timestamp) (ops : List Op) (s : State) (id : String)
    (h : s.timers id = none) : (ops.foldl (step parse) s).timers id = none := by
  induction ops generalizing s with
  | nil => exact h
  | cons op ops ih =>
    rw [List.foldl_cons]
    exact ih (step parse s op) (step_timers_none parse s op id h)

/-! ## Handlers: claims -/

/-- C4: when the remote delete call of `handleDelete(id)` succeeds, the timer
map afterwards has no entry for `id` and the entry of every other id is the
same as before. -/
theorem handleDelete_removes_timer (s : State) (reportId : String) :
    (handleDelete s reportId true).timers reportId = none ∧
    (∀ k : String, k ≠ reportId → (handleDelete s reportId true).timers k = s.timers k) := by
  rw [handleDelete_ok]
  exact ⟨Timers.delete_same _ _, fun k hk => Timers.delete_other _ _ k hk⟩

theorem handleDelete_removes_timer_witness :
    sampleState.timers "r2" = some (.ms 172800000) ∧
    (handleDelete sampleState "r2" true).timers "r2" = none ∧
    (handleDelete sampleState "r2" true).timers "r7" = some (.ms 259200000) :=
  ⟨by decide, (handleDelete_removes_timer sampleState "r2").1,
   ((handleDelete_removes_timer sampleState "r2").2 "r7" (by decide)).trans (by decide)⟩

/-- C5 is not met by the code: `handleUpdate` never reaches its remote call
nor the timer writes of lines 79-90.  After a reload with report `r2` in
progress, selected, and its deadline in the form, `handleUpdate` leaves `r2`
without timer entry, issues no request and ends with the error message; with
'completed' chosen for a report whose timer runs, the entry stays; in every
state the timer map, the request record and the report list are as
before. -/
theorem handleUpdate_writes_no_timer :
    ((run sampleParse sampleRun).selectedReport = some sampleInProgress ∧
      (run sampleParse sampleRun).status = "in-progress" ∧
      (run sampleParse sampleRun).estimatedCompletionTime = "1970-01-03T00:00:00.000Z" ∧
      (handleUpdate (run sampleParse sampleRun)).timers "r2" = none ∧
      (handleUpdate (run sampleParse sampleRun)).requests = [Request.get] ∧
      (handleUpdate (run sampleParse sampleRun)).message = "Error updating report status.") ∧
    ((handleUpdate { sampleState with status := "completed" }).timers "r2" =
        some (.ms 172800000) ∧
      (handleUpdate { sampleState with status := "completed" }).requests = [Request.get]) ∧
    (∀ s : State, (handleUpdate s).timers = s.timers ∧ (handleUpdate s).requests = s.requests ∧
      (handleUpdate s).reports = s.reports) := by
  refine ⟨by decide, by decide, handleUpdate_frame⟩

/-- C7: `handleUpdate` with a report selected ends with the message 'Error
updating report status.' (its remote call is never reached, so this is its
outcome whatever the server would answer), and `handleDelete` whose remote
call fails ends with 'Error deleting report.'; in both cases the timer map
and the report list are as before and there is no list refresh, retry or
other call: `handleUpdate` issues no request, `handleDelete` only the failed
`DELETE`. -/
theorem handlers_on_failure (s : State) (reportId : String) :
    (∀ sel : Report, s.selectedReport = some sel →
      (handleUpdate s).message = "Error updating report status." ∧
      (handleUpdate s).timers = s.timers ∧
      (handleUpdate s).reports = s.reports ∧
      (handleUpdate s).requests = s.requests) ∧
    ((handleDelete s reportId false).message = "Error deleting report." ∧
      (handleDelete s reportId false).timers = s.timers ∧
      (handleDelete s reportId false).reports = s.reports ∧
      (handleDelete s reportId false).requests = s.requests ++ [Request.delete reportId]) := by
  constructor
  · intro sel h
    rw [handleUpdate_selected s sel h]
    exact ⟨rfl, rfl, rfl, rfl⟩
  · rw [handleDelete_failed]
    exact ⟨rfl, rfl, rfl, rfl⟩

theorem handlers_on_failure_witness :
    ((handleUpdate sampleState).message = "Error updating report status." ∧
      (handleUpdate sampleState).timers "r2" = some (.ms 172800000) ∧
      (handleUpdate sampleState).reports = [samplePending, sampleInProgress] ∧
      (handleUpdate sampleState).requests = [Request.get]) ∧
    ((handleDelete sampleState "r2" false).message = "Error deleting report." ∧
      (handleDelete sampleState "r2" false).timers "r2" = some (.ms 172800000) ∧
      (handleDelete sampleState "r2" false).reports = [samplePending, sampleInProgress] ∧
      (handleDelete sampleState "r2" false).requests = [Request.get, Request.delete "r2"]) := by
  obtain ⟨hu, hm, ht, hr, hq⟩ := handlers_on_failure sampleState "r2"
  obtain ⟨um, ut, ur, uq⟩ := hu sampleInProgress rfl
  refine ⟨⟨um, ?_, ur, uq⟩, hm, ?_, hr, hq⟩
  · rw [ut]; decide
  · rw [ht]; decide

/-! ## Timer entries over runs of the component -/

/-- C3: in every state reachable from the initial state (empty report list,
empty timer map) by any sequence of the component's operations, every id
that has an entry in the timer map is the id of a held report with status
'in-progress'.  No operation ever adds an entry (the write of lines 80-83 is
never reached), so the timer map of a reachable state has no entry at
all. -/
theorem timers_only_for_inProgress (parse : String → Timestamp) (ops : List Op) (id : String) :
    (run parse ops).timers id = none ∧
    ((run parse ops).timers id ≠ none →
      ∃ r ∈ (run parse ops).reports, r._id = id ∧ r.status = "in-progress") := by
  have h : (run parse ops).timers id = none := foldl_timers_none parse ops State.init id rfl
  exact ⟨h, fun hne => absurd h hne⟩

/-- From a state that holds a running timer (no run from the initial state
reaches one), a tick of the countdown-expiry sweep at the deadline fails the
report and keeps its timer entry: no operation other than `handleDelete`
trims the timer map. -/
theorem expiryTick_keeps_timer :
    (step sampleParse sampleState (Op.expiryTick 172800000)).reports =
      [samplePending, { sampleInProgress with status := "failed" }] ∧
    (step sampleParse sampleState (Op.expiryTick 172800000)).timers "r2" =
      some (.ms 172800000) := by
  decide

end MunicipalDashboard
